import Mathlib

/-!
# mcp-finance: the two tool handlers of `main.go`

`main.go` registers two tool handlers with an MCP server:

* `last_quote` (lines 47-67) and
* `time_series_daily` (lines 70-91).

Each handler extracts its arguments from the call request, formats a URL,
issues one `http.Get`, reads the body with `io.ReadAll` and wraps the outcome
in a `*mcp.CallToolResult`.

The embedding below is a shallow one.  Go strings and byte slices are lists of
bytes.  The handlers are pure functions of the call request and of a `World`
that answers the three questions a handler asks of its surroundings
(`os.Getenv`, `http.Get` together with the later `io.ReadAll`, and the
rendering of the `%q` verb).  Every call a handler makes to `http.Get`,
`io.ReadAll` and `Body.Close` is appended to a trace, so "how many requests did
the handler issue" is a statement about that trace.  What `net/http` does
inside one call of `http.Get` (parsing the URL, following redirects) is part of
the outcome the `World` supplies, not of the trace.
-/

set_option maxRecDepth 20000

namespace McpFinance

/-! ## Go values -/

/-- A Go `string` or `[]byte`: a finite sequence of bytes. -/
abbrev GoString := List UInt8

/-- The bytes of a Go string literal (Go source is UTF-8). -/
def lit (s : String) : GoString := s.toUTF8.data.toList

/-- A non-nil Go `error`; `msg` is what its `Error()` method returns.
A value of type `error` that may be nil is an `Option GoError`. -/
structure GoError where
  msg : GoString
  deriving DecidableEq

/-- A value of Go type `any` as produced by decoding JSON arguments.
The payload of a number is never inspected by the handlers; it is kept as an
uninterpreted bit pattern. -/
inductive GoAny where
  | nil
  | bool (b : Bool)
  | number (bits : Nat)
  | string (s : GoString)
  | slice (xs : List GoAny)
  | map (m : List (GoString × GoAny))

/-- The type `mcp.CallToolRequest`, reduced to the two fields of `Params` the
handlers can reach: the tool name and `Params.Arguments` (of Go type `any`). -/
structure CallToolRequest where
  name : GoString
  arguments : GoAny

/-- The type `mcp.TextContent`. -/
structure TextContent where
  type : GoString
  text : GoString
  deriving DecidableEq

/-- The type `mcp.CallToolResult`.  The handlers only ever build results whose
content is a list of `TextContent`. -/
structure CallToolResult where
  content : List TextContent
  isError : Bool
  deriving DecidableEq

/-! ## The surroundings of a handler -/

/-- What `http.Get` hands back when it returns a nil error: the status code and
what a subsequent `io.ReadAll(resp.Body)` returns, namely the bytes read and
the read error, if any. -/
structure Response where
  statusCode : Int
  readAll : GoString × Option GoError

/-- The two ways `http.Get` returns.  With a non-nil error the handlers never
look at the response; with a nil error `net/http` guarantees a non-nil response
with a non-nil body. -/
inductive GetOutcome where
  | failed (err : GoError)
  | ok (resp : Response)

/-- Everything outside the handlers that their result depends on. -/
structure World where
  /-- The function `os.Getenv`, consulted at the time of the call. -/
  getenv : GoString → GoString
  /-- The outcome of `http.Get` for each URL. -/
  httpGet : GoString → GetOutcome
  /-- The rendering of the verb `%q` on a string (`strconv.Quote`). -/
  quote : GoString → GoString

/-- A call a handler makes to the network API. -/
inductive Event where
  | httpGet (url : GoString)
  | readAll
  | bodyClose
  deriving DecidableEq

/-- The call `http.Get(url)`: one outbound request issued by the handler,
recorded in the trace. -/
def httpGet (w : World) (url : GoString) (tr : List Event) : GetOutcome × List Event :=
  (w.httpGet url, tr ++ [Event.httpGet url])

/-- The call `io.ReadAll(resp.Body)`, recorded in the trace. -/
def ioReadAll (resp : Response) (tr : List Event) : (GoString × Option GoError) × List Event :=
  (resp.readAll, tr ++ [Event.readAll])

/-- The deferred call `resp.Body.Close()`, recorded in the trace. -/
def bodyClose (tr : List Event) : List Event :=
  tr ++ [Event.bodyClose]

/-- The URLs of the outbound requests of a trace, that is of its calls of
`http.Get`, in order. -/
def requests : List Event → List GoString
  | [] => []
  | Event.httpGet url :: tr => url :: requests tr
  | _ :: tr => requests tr

/-- Whether a trace contains a body read. -/
def readsBody (tr : List Event) : Bool :=
  tr.any (fun e => decide (e = Event.readAll))

/-! ## The `mcp` helpers used by the handlers

These belong to the dependency `github.com/mark3labs/mcp-go/mcp`, which
`main.go` imports and whose source is not part of this repository.  The
definitions follow that package: `RequireString` and `GetString` look the key
up in the argument map and test the dynamic type of the value found, nothing
else. -/

/-- The method `CallToolRequest.GetArguments`: the arguments when they are a
`map[string]any`, the nil map otherwise. -/
def CallToolRequest.GetArguments (r : CallToolRequest) : List (GoString × GoAny) :=
  match r.arguments with
  | GoAny.map m => m
  | _ => []

/-- The method `CallToolRequest.RequireString`: the string stored under `key`,
or an error when the key is absent or holds something that is not a string.
Returns the Go pair `(string, error)`. -/
def CallToolRequest.RequireString (r : CallToolRequest) (quote : GoString → GoString)
    (key : GoString) : GoString × Option GoError :=
  match r.GetArguments.lookup key with
  | some (GoAny.string str) => (str, none)
  | some _ => ([], some ⟨lit "argument " ++ quote key ++ lit " is not a string"⟩)
  | none => ([], some ⟨lit "required argument " ++ quote key ++ lit " not found"⟩)

/-- The method `CallToolRequest.GetString`: the string stored under `key`, or
`defaultValue` when the key is absent or holds something that is not a string. -/
def CallToolRequest.GetString (r : CallToolRequest) (key : GoString)
    (defaultValue : GoString) : GoString :=
  match r.GetArguments.lookup key with
  | some (GoAny.string str) => str
  | _ => defaultValue

/-- The function `mcp.NewToolResultText`. -/
def NewToolResultText (text : GoString) : CallToolResult :=
  { content := [{ type := lit "text", text := text }], isError := false }

/-- The function `mcp.NewToolResultError`. -/
def NewToolResultError (text : GoString) : CallToolResult :=
  { content := [{ type := lit "text", text := text }], isError := true }

/-- The function `mcp.NewToolResultErrorFromErr`: when `err` is non-nil the
text becomes `fmt.Sprintf("%s: %v", text, err)`. -/
def NewToolResultErrorFromErr (text : GoString) (err : Option GoError) : CallToolResult :=
  let text := match err with
    | some e => text ++ lit ": " ++ e.msg
    | none => text
  { content := [{ type := lit "text", text := text }], isError := true }

/-! ## The handlers -/

/-- What a handler returns, `(*mcp.CallToolResult, error)`, together with the
trace of the network effects it performed. -/
structure HandlerReturn where
  result : Option CallToolResult
  err : Option GoError
  trace : List Event

/-- The text of a result: the texts of its content items, concatenated (the
handlers build exactly one item). -/
def CallToolResult.text (r : CallToolResult) : GoString :=
  (r.content.map TextContent.text).flatten

/-- The handler returned a non-nil result flagged as an error, with this text. -/
def HandlerReturn.isErrorWith (r : HandlerReturn) (text : GoString) : Bool :=
  match r.result with
  | some res => res.isError && decide (res.text = text)
  | none => false

/-- The handler returned a non-nil result not flagged as an error, with this text. -/
def HandlerReturn.isSuccessWith (r : HandlerReturn) (text : GoString) : Bool :=
  match r.result with
  | some res => !res.isError && decide (res.text = text)
  | none => false

/-- Line 53, the call
`fmt.Sprintf("https://www.alphavantage.co/query?function=GLOBAL_QUOTE&symbol=%s&apikey=%s", symbol, key)`:
the verb `%s` inserts a string operand byte for byte. -/
def lastQuoteURL (symbol key : GoString) : GoString :=
  lit "https://www.alphavantage.co/query?function=GLOBAL_QUOTE&symbol=" ++ symbol
    ++ lit "&apikey=" ++ key

/-- Line 77, the call
`fmt.Sprintf("https://www.alphavantage.co/query?function=TIME_SERIES_DAILY&symbol=%s&outputsize=%s&apikey=%s", symbol, outputsize, key)`. -/
def timeSeriesDailyURL (symbol outputsize key : GoString) : GoString :=
  lit "https://www.alphavantage.co/query?function=TIME_SERIES_DAILY&symbol=" ++ symbol
    ++ lit "&outputsize=" ++ outputsize ++ lit "&apikey=" ++ key

/-- The handler registered for `last_quote` (`main.go`, lines 47-67). -/
def lastQuoteHandler (w : World) (request : CallToolRequest) : HandlerReturn :=
  match request.RequireString w.quote (lit "symbol") with
  | (_, some err) => ⟨some (NewToolResultError err.msg), none, []⟩
  | (symbol, none) =>
    let url := lastQuoteURL symbol (w.getenv (lit "AV_API_KEY"))
    match httpGet w url [] with
    | (GetOutcome.failed err, tr) => ⟨some (NewToolResultError err.msg), none, tr⟩
    | (GetOutcome.ok resp, tr) =>
      match ioReadAll resp tr with
      | ((_, some err), tr) =>
        ⟨some (NewToolResultErrorFromErr (lit "unable to read request response") (some err)),
          none, bodyClose tr⟩
      | ((respBody, none), tr) =>
        ⟨some (NewToolResultText (lit "Data: " ++ respBody)), none, bodyClose tr⟩

/-- The handler registered for `time_series_daily` (`main.go`, lines 70-91). -/
def timeSeriesDailyHandler (w : World) (request : CallToolRequest) : HandlerReturn :=
  match request.RequireString w.quote (lit "symbol") with
  | (_, some err) => ⟨some (NewToolResultError err.msg), none, []⟩
  | (symbol, none) =>
    let outputsize := request.GetString (lit "outputsize") (lit "compact")
    let url := timeSeriesDailyURL symbol outputsize (w.getenv (lit "AV_API_KEY"))
    match httpGet w url [] with
    | (GetOutcome.failed err, tr) => ⟨some (NewToolResultError err.msg), none, tr⟩
    | (GetOutcome.ok resp, tr) =>
      match ioReadAll resp tr with
      | ((_, some err), tr) =>
        ⟨some (NewToolResultErrorFromErr (lit "unable to read request response") (some err)),
          none, bodyClose tr⟩
      | ((respBody, none), tr) =>
        ⟨some (NewToolResultText (lit "Data: " ++ respBody)), none, bodyClose tr⟩

/-! ## The shared utility of the specification -/

/-- The fetch-and-relay step as the specification describes it, factored into
one utility: issue a single GET for `url`; on a transport failure return an
error result with the error text; otherwise read the whole body, return an
error result prefixed `unable to read request response` when the read fails and
a success result `Data: ` followed by the body otherwise; release the
connection once the body has been consumed. -/
def fetchAndRelay (w : World) (url : GoString) : HandlerReturn :=
  match w.httpGet url with
  | GetOutcome.failed e =>
    { result := some (NewToolResultError e.msg), err := none, trace := [Event.httpGet url] }
  | GetOutcome.ok resp =>
    match resp.readAll.2 with
    | some e =>
      { result := some (NewToolResultError (lit "unable to read request response" ++ lit ": " ++ e.msg)),
        err := none, trace := [Event.httpGet url, Event.readAll, Event.bodyClose] }
    | none =>
      { result := some (NewToolResultText (lit "Data: " ++ resp.readAll.1)),
        err := none, trace := [Event.httpGet url, Event.readAll, Event.bodyClose] }

/-- Validation of the required `symbol` followed by the shared utility on the
URL the handler builds from the validated symbol. -/
def validateThenRelay (w : World) (request : CallToolRequest)
    (buildURL : GoString → GoString) : HandlerReturn :=
  match (request.RequireString w.quote (lit "symbol")).2 with
  | some e => { result := some (NewToolResultError e.msg), err := none, trace := [] }
  | none => fetchAndRelay w (buildURL (request.RequireString w.quote (lit "symbol")).1)

/-! ## Sample surroundings and requests -/

/-- A request carrying the given argument map. -/
def mkRequest (tool : GoString) (args : List (GoString × GoAny)) : CallToolRequest :=
  { name := tool, arguments := GoAny.map args }

/-- A world in which every request is answered by the same outcome, the key is
`demo`, and `%q` wraps its operand in double quotes. -/
def constWorld (o : GetOutcome) : World :=
  { getenv := fun _ => lit "demo", httpGet := fun _ => o,
    quote := fun k => [34] ++ k ++ [34] }

/-- A world like `constWorld` whose API key is empty. -/
def noKeyWorld (o : GetOutcome) : World :=
  { getenv := fun _ => [], httpGet := fun _ => o, quote := fun k => [34] ++ k ++ [34] }

/-- An upstream answer with the given status whose body is read in full. -/
def fullBody (status : Int) (body : GoString) : GetOutcome :=
  GetOutcome.ok { statusCode := status, readAll := (body, none) }

/-- An upstream answer whose body read breaks off after `got` with error `e`. -/
def brokenBody (status : Int) (got : GoString) (e : GoError) : GetOutcome :=
  GetOutcome.ok { statusCode := status, readAll := (got, some e) }

/-! ## Unfolding lemmas -/

theorem RequireString_of_string (request : CallToolRequest) (q : GoString → GoString)
    (key s : GoString) (h : request.GetArguments.lookup key = some (GoAny.string s)) :
    request.RequireString q key = (s, none) := by
  simp [CallToolRequest.RequireString, h]

theorem RequireString_of_absent (request : CallToolRequest) (q : GoString → GoString)
    (key : GoString) (h : request.GetArguments.lookup key = none) :
    request.RequireString q key
      = ([], some ⟨lit "required argument " ++ q key ++ lit " not found"⟩) := by
  simp [CallToolRequest.RequireString, h]

theorem GetString_of_string (request : CallToolRequest) (key d s : GoString)
    (h : request.GetArguments.lookup key = some (GoAny.string s)) :
    request.GetString key d = s := by
  simp [CallToolRequest.GetString, h]

theorem GetString_of_absent (request : CallToolRequest) (key d : GoString)
    (h : request.GetArguments.lookup key = none) :
    request.GetString key d = d := by
  simp [CallToolRequest.GetString, h]

theorem lastQuoteHandler_invalid (w : World) (request : CallToolRequest) (x : GoString)
    (e : GoError) (hv : request.RequireString w.quote (lit "symbol") = (x, some e)) :
    lastQuoteHandler w request = ⟨some (NewToolResultError e.msg), none, []⟩ := by
  simp [lastQuoteHandler, hv]

theorem timeSeriesDailyHandler_invalid (w : World) (request : CallToolRequest) (x : GoString)
    (e : GoError) (hv : request.RequireString w.quote (lit "symbol") = (x, some e)) :
    timeSeriesDailyHandler w request = ⟨some (NewToolResultError e.msg), none, []⟩ := by
  simp [timeSeriesDailyHandler, hv]

theorem lastQuoteHandler_failed (w : World) (request : CallToolRequest) (s : GoString)
    (e : GoError) (hv : request.RequireString w.quote (lit "symbol") = (s, none))
    (hg : w.httpGet (lastQuoteURL s (w.getenv (lit "AV_API_KEY"))) = GetOutcome.failed e) :
    lastQuoteHandler w request
      = ⟨some (NewToolResultError e.msg), none,
          [Event.httpGet (lastQuoteURL s (w.getenv (lit "AV_API_KEY")))]⟩ := by
  simp [lastQuoteHandler, hv, httpGet, hg]

theorem lastQuoteHandler_readError (w : World) (request : CallToolRequest) (s got : GoString)
    (status : Int) (e : GoError)
    (hv : request.RequireString w.quote (lit "symbol") = (s, none))
    (hg : w.httpGet (lastQuoteURL s (w.getenv (lit "AV_API_KEY")))
      = GetOutcome.ok ⟨status, (got, some e)⟩) :
    lastQuoteHandler w request
      = ⟨some (NewToolResultErrorFromErr (lit "unable to read request response") (some e)), none,
          [Event.httpGet (lastQuoteURL s (w.getenv (lit "AV_API_KEY"))), Event.readAll,
            Event.bodyClose]⟩ := by
  simp [lastQuoteHandler, hv, httpGet, hg, ioReadAll, bodyClose]

theorem lastQuoteHandler_ok (w : World) (request : CallToolRequest) (s body : GoString)
    (status : Int)
    (hv : request.RequireString w.quote (lit "symbol") = (s, none))
    (hg : w.httpGet (lastQuoteURL s (w.getenv (lit "AV_API_KEY")))
      = GetOutcome.ok ⟨status, (body, none)⟩) :
    lastQuoteHandler w request
      = ⟨some (NewToolResultText (lit "Data: " ++ body)), none,
          [Event.httpGet (lastQuoteURL s (w.getenv (lit "AV_API_KEY"))), Event.readAll,
            Event.bodyClose]⟩ := by
  simp [lastQuoteHandler, hv, httpGet, hg, ioReadAll, bodyClose]

theorem timeSeriesDailyHandler_failed (w : World) (request : CallToolRequest) (s : GoString)
    (e : GoError) (hv : request.RequireString w.quote (lit "symbol") = (s, none))
    (hg : w.httpGet (timeSeriesDailyURL s (request.GetString (lit "outputsize") (lit "compact"))
      (w.getenv (lit "AV_API_KEY"))) = GetOutcome.failed e) :
    timeSeriesDailyHandler w request
      = ⟨some (NewToolResultError e.msg), none,
          [Event.httpGet (timeSeriesDailyURL s
            (request.GetString (lit "outputsize") (lit "compact"))
            (w.getenv (lit "AV_API_KEY")))]⟩ := by
  simp [timeSeriesDailyHandler, hv, httpGet, hg]

theorem timeSeriesDailyHandler_readError (w : World) (request : CallToolRequest)
    (s got : GoString) (status : Int) (e : GoError)
    (hv : request.RequireString w.quote (lit "symbol") = (s, none))
    (hg : w.httpGet (timeSeriesDailyURL s (request.GetString (lit "outputsize") (lit "compact"))
      (w.getenv (lit "AV_API_KEY"))) = GetOutcome.ok ⟨status, (got, some e)⟩) :
    timeSeriesDailyHandler w request
      = ⟨some (NewToolResultErrorFromErr (lit "unable to read request response") (some e)), none,
          [Event.httpGet (timeSeriesDailyURL s
            (request.GetString (lit "outputsize") (lit "compact"))
            (w.getenv (lit "AV_API_KEY"))), Event.readAll, Event.bodyClose]⟩ := by
  simp [timeSeriesDailyHandler, hv, httpGet, hg, ioReadAll, bodyClose]

theorem timeSeriesDailyHandler_ok (w : World) (request : CallToolRequest) (s body : GoString)
    (status : Int)
    (hv : request.RequireString w.quote (lit "symbol") = (s, none))
    (hg : w.httpGet (timeSeriesDailyURL s (request.GetString (lit "outputsize") (lit "compact"))
      (w.getenv (lit "AV_API_KEY"))) = GetOutcome.ok ⟨status, (body, none)⟩) :
    timeSeriesDailyHandler w request
      = ⟨some (NewToolResultText (lit "Data: " ++ body)), none,
          [Event.httpGet (timeSeriesDailyURL s
            (request.GetString (lit "outputsize") (lit "compact"))
            (w.getenv (lit "AV_API_KEY"))), Event.readAll, Event.bodyClose]⟩ := by
  simp [timeSeriesDailyHandler, hv, httpGet, hg, ioReadAll, bodyClose]

/-- Whatever the upstream does, a validated `last_quote` call issues exactly
one request, for the URL of line 53. -/
theorem lastQuoteHandler_requests (w : World) (request : CallToolRequest) (s : GoString)
    (hv : request.RequireString w.quote (lit "symbol") = (s, none)) :
    requests (lastQuoteHandler w request).trace
      = [lastQuoteURL s (w.getenv (lit "AV_API_KEY"))] := by
  cases hg : w.httpGet (lastQuoteURL s (w.getenv (lit "AV_API_KEY"))) with
  | failed e => rw [lastQuoteHandler_failed w request s e hv hg]; rfl
  | ok resp =>
    obtain ⟨status, got, oe⟩ := resp
    cases oe with
    | some e => rw [lastQuoteHandler_readError w request s got status e hv hg]; rfl
    | none => rw [lastQuoteHandler_ok w request s got status hv hg]; rfl

/-- Whatever the upstream does, a validated `time_series_daily` call issues
exactly one request, for the URL of line 77. -/
theorem timeSeriesDailyHandler_requests (w : World) (request : CallToolRequest) (s : GoString)
    (hv : request.RequireString w.quote (lit "symbol") = (s, none)) :
    requests (timeSeriesDailyHandler w request).trace
      = [timeSeriesDailyURL s (request.GetString (lit "outputsize") (lit "compact"))
          (w.getenv (lit "AV_API_KEY"))] := by
  cases hg : w.httpGet (timeSeriesDailyURL s
      (request.GetString (lit "outputsize") (lit "compact")) (w.getenv (lit "AV_API_KEY"))) with
  | failed e => rw [timeSeriesDailyHandler_failed w request s e hv hg]; rfl
  | ok resp =>
    obtain ⟨status, got, oe⟩ := resp
    cases oe with
    | some e => rw [timeSeriesDailyHandler_readError w request s got status e hv hg]; rfl
    | none => rw [timeSeriesDailyHandler_ok w request s got status hv hg]; rfl

/-- The `last_quote` handler is validation followed by the shared utility. -/
theorem lastQuoteHandler_eq_validateThenRelay (w : World) (request : CallToolRequest) :
    lastQuoteHandler w request
      = validateThenRelay w request (fun s => lastQuoteURL s (w.getenv (lit "AV_API_KEY"))) := by
  rcases hv : request.RequireString w.quote (lit "symbol") with ⟨x, oe⟩
  cases oe with
  | some e => rw [lastQuoteHandler_invalid w request x e hv]; simp [validateThenRelay, hv]
  | none =>
    cases hg : w.httpGet (lastQuoteURL x (w.getenv (lit "AV_API_KEY"))) with
    | failed e =>
      rw [lastQuoteHandler_failed w request x e hv hg]
      simp [validateThenRelay, hv, fetchAndRelay, hg]
    | ok resp =>
      obtain ⟨status, got, oe⟩ := resp
      cases oe with
      | some e =>
        rw [lastQuoteHandler_readError w request x got status e hv hg]
        simp [validateThenRelay, hv, fetchAndRelay, hg, NewToolResultErrorFromErr,
          NewToolResultError]
      | none =>
        rw [lastQuoteHandler_ok w request x got status hv hg]
        simp [validateThenRelay, hv, fetchAndRelay, hg]

/-- The `time_series_daily` handler is validation followed by the shared
utility. -/
theorem timeSeriesDailyHandler_eq_validateThenRelay (w : World) (request : CallToolRequest) :
    timeSeriesDailyHandler w request
      = validateThenRelay w request (fun s => timeSeriesDailyURL s
          (request.GetString (lit "outputsize") (lit "compact"))
          (w.getenv (lit "AV_API_KEY"))) := by
  rcases hv : request.RequireString w.quote (lit "symbol") with ⟨x, oe⟩
  cases oe with
  | some e => rw [timeSeriesDailyHandler_invalid w request x e hv]; simp [validateThenRelay, hv]
  | none =>
    cases hg : w.httpGet (timeSeriesDailyURL x
        (request.GetString (lit "outputsize") (lit "compact"))
        (w.getenv (lit "AV_API_KEY"))) with
    | failed e =>
      rw [timeSeriesDailyHandler_failed w request x e hv hg]
      simp [validateThenRelay, hv, fetchAndRelay, hg]
    | ok resp =>
      obtain ⟨status, got, oe⟩ := resp
      cases oe with
      | some e =>
        rw [timeSeriesDailyHandler_readError w request x got status e hv hg]
        simp [validateThenRelay, hv, fetchAndRelay, hg, NewToolResultErrorFromErr,
          NewToolResultError]
      | none =>
        rw [timeSeriesDailyHandler_ok w request x got status hv hg]
        simp [validateThenRelay, hv, fetchAndRelay, hg]

/-- The result and error of the shared utility depend on the URL only through
the upstream outcome for it. -/
theorem fetchAndRelay_congr (w : World) (u v : GoString) (h : w.httpGet u = w.httpGet v) :
    (fetchAndRelay w u).result = (fetchAndRelay w v).result ∧
    (fetchAndRelay w u).err = (fetchAndRelay w v).err := by
  unfold fetchAndRelay
  rw [h]
  cases w.httpGet v with
  | failed e => simp
  | ok resp =>
    obtain ⟨status, got, oe⟩ := resp
    cases oe <;> simp

/-- The shared utility always returns a result and a nil error. -/
theorem fetchAndRelay_total (w : World) (u : GoString) :
    (fetchAndRelay w u).result.isSome = true ∧ (fetchAndRelay w u).err = none := by
  unfold fetchAndRelay
  cases w.httpGet u with
  | failed e => simp
  | ok resp =>
    obtain ⟨status, got, oe⟩ := resp
    cases oe <;> simp

/-- Validation followed by the shared utility always returns a result and a nil
error. -/
theorem validateThenRelay_total (w : World) (request : CallToolRequest)
    (buildURL : GoString → GoString) :
    (validateThenRelay w request buildURL).result.isSome = true ∧
    (validateThenRelay w request buildURL).err = none := by
  unfold validateThenRelay
  cases (request.RequireString w.quote (lit "symbol")).2 with
  | some e => simp
  | none => exact fetchAndRelay_total w _

/-- The second component of `RequireString` is nil exactly when the key holds a
string. -/
theorem RequireString_err_eq_none_iff (request : CallToolRequest) (q : GoString → GoString)
    (key : GoString) :
    (request.RequireString q key).2 = none
      ↔ ∃ s, request.GetArguments.lookup key = some (GoAny.string s) := by
  unfold CallToolRequest.RequireString
  cases h : request.GetArguments.lookup key with
  | none => simp
  | some v => cases v <;> simp

/-- After validation the first thing `last_quote` does is the call of
`http.Get` on the URL of line 53. -/
theorem lastQuoteHandler_trace_head (w : World) (request : CallToolRequest) (s : GoString)
    (hv : request.RequireString w.quote (lit "symbol") = (s, none)) :
    (lastQuoteHandler w request).trace.head?
      = some (Event.httpGet (lastQuoteURL s (w.getenv (lit "AV_API_KEY")))) := by
  cases hg : w.httpGet (lastQuoteURL s (w.getenv (lit "AV_API_KEY"))) with
  | failed e => rw [lastQuoteHandler_failed w request s e hv hg]; rfl
  | ok resp =>
    obtain ⟨status, got, oe⟩ := resp
    cases oe with
    | some e => rw [lastQuoteHandler_readError w request s got status e hv hg]; rfl
    | none => rw [lastQuoteHandler_ok w request s got status hv hg]; rfl

/-- After validation the first thing `time_series_daily` does is the call of
`http.Get` on the URL of line 77. -/
theorem timeSeriesDailyHandler_trace_head (w : World) (request : CallToolRequest)
    (s : GoString) (hv : request.RequireString w.quote (lit "symbol") = (s, none)) :
    (timeSeriesDailyHandler w request).trace.head?
      = some (Event.httpGet (timeSeriesDailyURL s
          (request.GetString (lit "outputsize") (lit "compact"))
          (w.getenv (lit "AV_API_KEY")))) := by
  cases hg : w.httpGet (timeSeriesDailyURL s
      (request.GetString (lit "outputsize") (lit "compact")) (w.getenv (lit "AV_API_KEY"))) with
  | failed e => rw [timeSeriesDailyHandler_failed w request s e hv hg]; rfl
  | ok resp =>
    obtain ⟨status, got, oe⟩ := resp
    cases oe with
    | some e => rw [timeSeriesDailyHandler_readError w request s got status e hv hg]; rfl
    | none => rw [timeSeriesDailyHandler_ok w request s got status hv hg]; rfl

/-! ## The claims -/

/-- C1: for both handlers, a call request whose argument map has no `symbol`
entry yields an error result (error flag set) whose text is the message of the
validation error returned by `RequireString`, and the handler issues no
outbound request: its trace is empty. -/
theorem missing_symbol_is_error_without_request (w : World) (request : CallToolRequest)
    (h : request.GetArguments.lookup (lit "symbol") = none) :
    ∃ e : GoError,
      (request.RequireString w.quote (lit "symbol")).2 = some e ∧
      e.msg = lit "required argument " ++ w.quote (lit "symbol") ++ lit " not found" ∧
      (lastQuoteHandler w request).isErrorWith e.msg = true ∧
      (lastQuoteHandler w request).trace = [] ∧
      requests (lastQuoteHandler w request).trace = [] ∧
      (timeSeriesDailyHandler w request).isErrorWith e.msg = true ∧
      (timeSeriesDailyHandler w request).trace = [] ∧
      requests (timeSeriesDailyHandler w request).trace = [] := by
  have hv := RequireString_of_absent request w.quote (lit "symbol") h
  refine ⟨⟨lit "required argument " ++ w.quote (lit "symbol") ++ lit " not found"⟩, ?_⟩
  rw [lastQuoteHandler_invalid w request _ _ hv, timeSeriesDailyHandler_invalid w request _ _ hv]
  simp [hv, HandlerReturn.isErrorWith, NewToolResultError, CallToolResult.text, requests]

/-- Witness for C1: a `time_series_daily` call that carries only `outputsize`. -/
theorem missing_symbol_is_error_without_request_witness :
    (mkRequest (lit "time_series_daily")
        [(lit "outputsize", GoAny.string (lit "full"))]).GetArguments.lookup (lit "symbol") = none ∧
    ∃ e : GoError,
      e.msg = lit "required argument " ++ ([34] ++ lit "symbol" ++ [34]) ++ lit " not found" ∧
      (timeSeriesDailyHandler (constWorld (fullBody 200 (lit "ok")))
        (mkRequest (lit "time_series_daily")
          [(lit "outputsize", GoAny.string (lit "full"))])).isErrorWith e.msg = true ∧
      (timeSeriesDailyHandler (constWorld (fullBody 200 (lit "ok")))
        (mkRequest (lit "time_series_daily")
          [(lit "outputsize", GoAny.string (lit "full"))])).trace = [] := by
  refine ⟨rfl, ?_⟩
  obtain ⟨e, _, h2, _, _, _, h6, h7, _⟩ :=
    missing_symbol_is_error_without_request (constWorld (fullBody 200 (lit "ok")))
      (mkRequest (lit "time_series_daily") [(lit "outputsize", GoAny.string (lit "full"))]) rfl
  exact ⟨e, h2, h6, h7⟩

/-- C2: for both handlers, for every string `symbol`, every status code and
every body `B` that is read in full, the handler returns a success result
(error flag not set) whose text is exactly `Data: ` followed by the bytes of
`B`. -/
theorem full_body_is_relayed_verbatim (w : World) (request : CallToolRequest)
    (s B : GoString) (status : Int)
    (hs : request.GetArguments.lookup (lit "symbol") = some (GoAny.string s)) :
    (w.httpGet (lastQuoteURL s (w.getenv (lit "AV_API_KEY"))) = fullBody status B →
      (lastQuoteHandler w request).isSuccessWith (lit "Data: " ++ B) = true ∧
      (lastQuoteHandler w request).result = some (NewToolResultText (lit "Data: " ++ B))) ∧
    (w.httpGet (timeSeriesDailyURL s (request.GetString (lit "outputsize") (lit "compact"))
        (w.getenv (lit "AV_API_KEY"))) = fullBody status B →
      (timeSeriesDailyHandler w request).isSuccessWith (lit "Data: " ++ B) = true ∧
      (timeSeriesDailyHandler w request).result
        = some (NewToolResultText (lit "Data: " ++ B))) := by
  have hv := RequireString_of_string request w.quote (lit "symbol") s hs
  constructor
  · intro hg
    rw [lastQuoteHandler_ok w request s B status hv hg]
    simp [HandlerReturn.isSuccessWith, NewToolResultText, CallToolResult.text]
  · intro hg
    rw [timeSeriesDailyHandler_ok w request s B status hv hg]
    simp [HandlerReturn.isSuccessWith, NewToolResultText, CallToolResult.text]

/-- Witness for C2: symbol `IBM`, upstream status 503 with body `busy`. -/
theorem full_body_is_relayed_verbatim_witness :
    (lastQuoteHandler (constWorld (fullBody 503 (lit "busy")))
      (mkRequest (lit "last_quote") [(lit "symbol", GoAny.string (lit "IBM"))])).result
      = some (NewToolResultText (lit "Data: busy")) ∧
    (timeSeriesDailyHandler (constWorld (fullBody 503 (lit "busy")))
      (mkRequest (lit "time_series_daily") [(lit "symbol", GoAny.string (lit "IBM"))])).result
      = some (NewToolResultText (lit "Data: busy")) :=
  ⟨((full_body_is_relayed_verbatim (constWorld (fullBody 503 (lit "busy")))
      (mkRequest (lit "last_quote") [(lit "symbol", GoAny.string (lit "IBM"))])
      (lit "IBM") (lit "busy") 503 rfl).1 rfl).2,
   ((full_body_is_relayed_verbatim (constWorld (fullBody 503 (lit "busy")))
      (mkRequest (lit "time_series_daily") [(lit "symbol", GoAny.string (lit "IBM"))])
      (lit "IBM") (lit "busy") 503 rfl).2 rfl).2⟩

/-- C3: for every `time_series_daily` call with a string `symbol` and no
`outputsize` argument, the single outbound request goes to the URL built with
outputsize equal to `compact`, so the URL carries `outputsize=compact`. -/
theorem outputsize_defaults_to_compact (w : World) (request : CallToolRequest) (s : GoString)
    (hs : request.GetArguments.lookup (lit "symbol") = some (GoAny.string s))
    (ho : request.GetArguments.lookup (lit "outputsize") = none) :
    requests (timeSeriesDailyHandler w request).trace
      = [lit "https://www.alphavantage.co/query?function=TIME_SERIES_DAILY&symbol=" ++ s
          ++ lit "&outputsize=" ++ lit "compact" ++ lit "&apikey="
          ++ w.getenv (lit "AV_API_KEY")] ∧
    ∀ url ∈ requests (timeSeriesDailyHandler w request).trace,
      lit "&outputsize=compact&" <:+: url := by
  have hv := RequireString_of_string request w.quote (lit "symbol") s hs
  have hu := timeSeriesDailyHandler_requests w request s hv
  rw [GetString_of_absent request _ _ ho] at hu
  rw [hu]
  refine ⟨rfl, ?_⟩
  intro url hmem
  rw [List.mem_singleton] at hmem
  subst hmem
  refine ⟨lit "https://www.alphavantage.co/query?function=TIME_SERIES_DAILY&symbol=" ++ s,
    lit "apikey=" ++ w.getenv (lit "AV_API_KEY"), ?_⟩
  have e1 : lit "&outputsize=compact&" = lit "&outputsize=" ++ lit "compact" ++ lit "&" := by
    decide
  have e2 : lit "&apikey=" = lit "&" ++ lit "apikey=" := by decide
  rw [e1, timeSeriesDailyURL, e2]
  simp only [List.append_assoc]

/-- Witness for C3: symbol `IBM`, no `outputsize`, key `demo`. -/
theorem outputsize_defaults_to_compact_witness :
    requests (timeSeriesDailyHandler (constWorld (fullBody 200 (lit "ok")))
      (mkRequest (lit "time_series_daily") [(lit "symbol", GoAny.string (lit "IBM"))])).trace
      = [lit ("https://www.alphavantage.co/query?function=TIME_SERIES_DAILY&symbol=IBM"
          ++ "&outputsize=compact&apikey=demo")] :=
  (outputsize_defaults_to_compact (constWorld (fullBody 200 (lit "ok")))
    (mkRequest (lit "time_series_daily") [(lit "symbol", GoAny.string (lit "IBM"))])
    (lit "IBM") rfl rfl).1

/-- C4: for every `time_series_daily` call with string `symbol` s and string
`outputsize` o, whatever o is (no membership test against the declared enum is
made), the single outbound request goes to exactly
`https://www.alphavantage.co/query?function=TIME_SERIES_DAILY&symbol=` s
`&outputsize=` o `&apikey=` k; for s = `AAPL` and o = `full` that URL contains
`function=TIME_SERIES_DAILY&symbol=AAPL&outputsize=full`. -/
theorem outputsize_is_passed_through (w : World) (request : CallToolRequest) (s o : GoString)
    (hs : request.GetArguments.lookup (lit "symbol") = some (GoAny.string s))
    (ho : request.GetArguments.lookup (lit "outputsize") = some (GoAny.string o)) :
    requests (timeSeriesDailyHandler w request).trace
      = [lit "https://www.alphavantage.co/query?function=TIME_SERIES_DAILY&symbol=" ++ s
          ++ lit "&outputsize=" ++ o ++ lit "&apikey=" ++ w.getenv (lit "AV_API_KEY")] ∧
    (s = lit "AAPL" → o = lit "full" →
      ∀ url ∈ requests (timeSeriesDailyHandler w request).trace,
        lit "function=TIME_SERIES_DAILY&symbol=AAPL&outputsize=full" <:+: url) := by
  have hv := RequireString_of_string request w.quote (lit "symbol") s hs
  have hu := timeSeriesDailyHandler_requests w request s hv
  rw [GetString_of_string request _ _ o ho] at hu
  rw [hu]
  refine ⟨rfl, ?_⟩
  intro h1 h2 url hmem
  rw [List.mem_singleton] at hmem
  subst hmem h1 h2
  refine ⟨lit "https://www.alphavantage.co/query?",
    lit "&apikey=" ++ w.getenv (lit "AV_API_KEY"), ?_⟩
  have e1 : lit "https://www.alphavantage.co/query?function=TIME_SERIES_DAILY&symbol="
      ++ lit "AAPL" ++ lit "&outputsize=" ++ lit "full"
      = lit "https://www.alphavantage.co/query?"
        ++ lit "function=TIME_SERIES_DAILY&symbol=AAPL&outputsize=full" := by decide
  rw [timeSeriesDailyURL, e1]
  simp only [List.append_assoc]

/-- Witness for C4: an `outputsize` outside the declared enum reaches the URL
unchanged. -/
theorem outputsize_is_passed_through_witness :
    requests (timeSeriesDailyHandler (constWorld (fullBody 200 (lit "ok")))
      (mkRequest (lit "time_series_daily")
        [(lit "symbol", GoAny.string (lit "AAPL")),
         (lit "outputsize", GoAny.string (lit "weekly"))])).trace
      = [lit ("https://www.alphavantage.co/query?function=TIME_SERIES_DAILY&symbol=AAPL"
          ++ "&outputsize=weekly&apikey=demo")] :=
  (outputsize_is_passed_through (constWorld (fullBody 200 (lit "ok")))
    (mkRequest (lit "time_series_daily")
      [(lit "symbol", GoAny.string (lit "AAPL")),
       (lit "outputsize", GoAny.string (lit "weekly"))])
    (lit "AAPL") (lit "weekly") rfl rfl).1

/-- C5: for every `last_quote` call with string `symbol` s, where k is the
value of `AV_API_KEY` at the time of the call (possibly empty), the single
outbound request goes to exactly
`https://www.alphavantage.co/query?function=GLOBAL_QUOTE&symbol=` s `&apikey=` k,
with the bytes of s and k inserted unchanged, whatever they are. -/
theorem last_quote_url_is_verbatim (w : World) (request : CallToolRequest) (s : GoString)
    (hs : request.GetArguments.lookup (lit "symbol") = some (GoAny.string s)) :
    requests (lastQuoteHandler w request).trace
      = [lit "https://www.alphavantage.co/query?function=GLOBAL_QUOTE&symbol=" ++ s
          ++ lit "&apikey=" ++ w.getenv (lit "AV_API_KEY")] := by
  have hv := RequireString_of_string request w.quote (lit "symbol") s hs
  rw [lastQuoteHandler_requests w request s hv]
  rfl

/-- Witness for C5: a symbol made of reserved URL characters and a space, with
an empty API key. -/
theorem last_quote_url_is_verbatim_witness :
    requests (lastQuoteHandler (noKeyWorld (fullBody 200 (lit "ok")))
      (mkRequest (lit "last_quote") [(lit "symbol", GoAny.string (lit "A&B=C #D"))])).trace
      = [lit "https://www.alphavantage.co/query?function=GLOBAL_QUOTE&symbol=A&B=C #D&apikey="] :=
  last_quote_url_is_verbatim (noKeyWorld (fullBody 200 (lit "ok")))
    (mkRequest (lit "last_quote") [(lit "symbol", GoAny.string (lit "A&B=C #D"))])
    (lit "A&B=C #D") rfl

/-- C6: for both handlers, when symbol validation passes and the GET fails at
transport level with error e, the handler returns an error result whose text is
the message of e; its trace is the one GET and nothing else, so there is no
second request and no body read. -/
theorem transport_failure_is_error_after_one_attempt (w : World) (request : CallToolRequest)
    (s : GoString) (e : GoError)
    (hv : request.RequireString w.quote (lit "symbol") = (s, none)) :
    (w.httpGet (lastQuoteURL s (w.getenv (lit "AV_API_KEY"))) = GetOutcome.failed e →
      (lastQuoteHandler w request).isErrorWith e.msg = true ∧
      (lastQuoteHandler w request).trace
        = [Event.httpGet (lastQuoteURL s (w.getenv (lit "AV_API_KEY")))] ∧
      (requests (lastQuoteHandler w request).trace).length = 1 ∧
      readsBody (lastQuoteHandler w request).trace = false) ∧
    (w.httpGet (timeSeriesDailyURL s (request.GetString (lit "outputsize") (lit "compact"))
        (w.getenv (lit "AV_API_KEY"))) = GetOutcome.failed e →
      (timeSeriesDailyHandler w request).isErrorWith e.msg = true ∧
      (timeSeriesDailyHandler w request).trace
        = [Event.httpGet (timeSeriesDailyURL s
            (request.GetString (lit "outputsize") (lit "compact"))
            (w.getenv (lit "AV_API_KEY")))] ∧
      (requests (timeSeriesDailyHandler w request).trace).length = 1 ∧
      readsBody (timeSeriesDailyHandler w request).trace = false) := by
  constructor
  · intro hg
    rw [lastQuoteHandler_failed w request s e hv hg]
    simp [HandlerReturn.isErrorWith, NewToolResultError, CallToolResult.text, requests,
      readsBody]
  · intro hg
    rw [timeSeriesDailyHandler_failed w request s e hv hg]
    simp [HandlerReturn.isErrorWith, NewToolResultError, CallToolResult.text, requests,
      readsBody]

/-- Witness for C6: every GET fails with `dial tcp: no route`. -/
theorem transport_failure_is_error_after_one_attempt_witness :
    (lastQuoteHandler (constWorld (GetOutcome.failed ⟨lit "dial tcp: no route"⟩))
      (mkRequest (lit "last_quote")
        [(lit "symbol", GoAny.string (lit "IBM"))])).isErrorWith (lit "dial tcp: no route")
      = true ∧
    (timeSeriesDailyHandler (constWorld (GetOutcome.failed ⟨lit "dial tcp: no route"⟩))
      (mkRequest (lit "time_series_daily")
        [(lit "symbol", GoAny.string (lit "IBM"))])).isErrorWith (lit "dial tcp: no route")
      = true :=
  ⟨((transport_failure_is_error_after_one_attempt
      (constWorld (GetOutcome.failed ⟨lit "dial tcp: no route"⟩))
      (mkRequest (lit "last_quote") [(lit "symbol", GoAny.string (lit "IBM"))])
      (lit "IBM") ⟨lit "dial tcp: no route"⟩ rfl).1 rfl).1,
   ((transport_failure_is_error_after_one_attempt
      (constWorld (GetOutcome.failed ⟨lit "dial tcp: no route"⟩))
      (mkRequest (lit "time_series_daily") [(lit "symbol", GoAny.string (lit "IBM"))])
      (lit "IBM") ⟨lit "dial tcp: no route"⟩ rfl).2 rfl).1⟩

/-- C7: for both handlers, when the GET succeeds but reading the body fails
with error e, whatever bytes were read before the failure, the handler returns
an error result whose text is `unable to read request response`, then `: `,
then the message of e; the text therefore starts with
`unable to read request response`, contains the message of e, and does not
start with `Data: `. -/
theorem body_read_failure_is_error (w : World) (request : CallToolRequest)
    (s got : GoString) (status : Int) (e : GoError)
    (hv : request.RequireString w.quote (lit "symbol") = (s, none)) :
    (lit "unable to read request response"
        <+: lit "unable to read request response" ++ lit ": " ++ e.msg) ∧
    (e.msg <:+: lit "unable to read request response" ++ lit ": " ++ e.msg) ∧
    ¬ (lit "Data: " <+: lit "unable to read request response" ++ lit ": " ++ e.msg) ∧
    (w.httpGet (lastQuoteURL s (w.getenv (lit "AV_API_KEY"))) = brokenBody status got e →
      (lastQuoteHandler w request).isErrorWith
        (lit "unable to read request response" ++ lit ": " ++ e.msg) = true ∧
      (lastQuoteHandler w request).isSuccessWith (lit "Data: " ++ got) = false) ∧
    (w.httpGet (timeSeriesDailyURL s (request.GetString (lit "outputsize") (lit "compact"))
        (w.getenv (lit "AV_API_KEY"))) = brokenBody status got e →
      (timeSeriesDailyHandler w request).isErrorWith
        (lit "unable to read request response" ++ lit ": " ++ e.msg) = true ∧
      (timeSeriesDailyHandler w request).isSuccessWith (lit "Data: " ++ got) = false) := by
  refine ⟨⟨lit ": " ++ e.msg, by simp⟩, ⟨lit "unable to read request response" ++ lit ": ", [],
    by simp⟩, ?_, ?_, ?_⟩
  · have e1 : lit "unable to read request response"
        = 117 :: (lit "nable to read request response") := by decide
    have e2 : lit "Data: " = 68 :: lit "ata: " := by decide
    rw [e1, e2]
    intro hp
    simp at hp
  · intro hg
    rw [lastQuoteHandler_readError w request s got status e hv hg]
    simp [HandlerReturn.isErrorWith, HandlerReturn.isSuccessWith, NewToolResultErrorFromErr,
      CallToolResult.text]
  · intro hg
    rw [timeSeriesDailyHandler_readError w request s got status e hv hg]
    simp [HandlerReturn.isErrorWith, HandlerReturn.isSuccessWith, NewToolResultErrorFromErr,
      CallToolResult.text]

/-- Witness for C7: the body read breaks off after `abc` with `unexpected EOF`. -/
theorem body_read_failure_is_error_witness :
    (lastQuoteHandler (constWorld (brokenBody 200 (lit "abc") ⟨lit "unexpected EOF"⟩))
      (mkRequest (lit "last_quote")
        [(lit "symbol", GoAny.string (lit "IBM"))])).isErrorWith
          (lit "unable to read request response: unexpected EOF") = true ∧
    (timeSeriesDailyHandler (constWorld (brokenBody 200 (lit "abc") ⟨lit "unexpected EOF"⟩))
      (mkRequest (lit "time_series_daily")
        [(lit "symbol", GoAny.string (lit "IBM"))])).isErrorWith
          (lit "unable to read request response: unexpected EOF") = true :=
  ⟨((body_read_failure_is_error
      (constWorld (brokenBody 200 (lit "abc") ⟨lit "unexpected EOF"⟩))
      (mkRequest (lit "last_quote") [(lit "symbol", GoAny.string (lit "IBM"))])
      (lit "IBM") (lit "abc") 200 ⟨lit "unexpected EOF"⟩ rfl).2.2.2.1 rfl).1,
   ((body_read_failure_is_error
      (constWorld (brokenBody 200 (lit "abc") ⟨lit "unexpected EOF"⟩))
      (mkRequest (lit "time_series_daily") [(lit "symbol", GoAny.string (lit "IBM"))])
      (lit "IBM") (lit "abc") 200 ⟨lit "unexpected EOF"⟩ rfl).2.2.2.2 rfl).1⟩

/-- C8 as stated fails: a `last_quote` call whose `symbol` is the empty string
passes validation, issues one outbound request (with nothing between `symbol=`
and `&apikey=`) and returns a success result; it is not true that it returns an
error result and issues zero requests. -/
theorem empty_symbol_is_not_rejected :
    (mkRequest (lit "last_quote") [(lit "symbol", GoAny.string [])]).RequireString
        (constWorld (fullBody 200 (lit "ok"))).quote (lit "symbol") = ([], none) ∧
    requests (lastQuoteHandler (constWorld (fullBody 200 (lit "ok")))
        (mkRequest (lit "last_quote") [(lit "symbol", GoAny.string [])])).trace
      = [lit "https://www.alphavantage.co/query?function=GLOBAL_QUOTE&symbol=&apikey=demo"] ∧
    (lastQuoteHandler (constWorld (fullBody 200 (lit "ok")))
        (mkRequest (lit "last_quote") [(lit "symbol", GoAny.string [])])).result
      = some (NewToolResultText (lit "Data: ok")) ∧
    ¬ ((∃ t, (lastQuoteHandler (constWorld (fullBody 200 (lit "ok")))
          (mkRequest (lit "last_quote")
            [(lit "symbol", GoAny.string [])])).isErrorWith t = true) ∧
        requests (lastQuoteHandler (constWorld (fullBody 200 (lit "ok")))
          (mkRequest (lit "last_quote") [(lit "symbol", GoAny.string [])])).trace = []) := by
  refine ⟨rfl, by decide, by decide, ?_⟩
  rintro ⟨_, h⟩
  revert h
  decide

/-- C8 (amended): for both handlers, validation of `symbol` is a presence check
only, with no non-emptiness check: every call whose `symbol` is a string, the
empty string included, passes validation and proceeds to the fetch (the
handler goes on to call `http.Get` on the URL built from that string),
whatever characters the string contains. -/
theorem symbol_validation_is_presence_only (w : World) (request : CallToolRequest)
    (s : GoString)
    (hs : request.GetArguments.lookup (lit "symbol") = some (GoAny.string s)) :
    request.RequireString w.quote (lit "symbol") = (s, none) ∧
    (lastQuoteHandler w request).trace.head?
      = some (Event.httpGet (lastQuoteURL s (w.getenv (lit "AV_API_KEY")))) ∧
    (timeSeriesDailyHandler w request).trace.head?
      = some (Event.httpGet (timeSeriesDailyURL s
          (request.GetString (lit "outputsize") (lit "compact"))
          (w.getenv (lit "AV_API_KEY")))) := by
  have hv := RequireString_of_string request w.quote (lit "symbol") s hs
  exact ⟨hv, lastQuoteHandler_trace_head w request s hv,
    timeSeriesDailyHandler_trace_head w request s hv⟩

/-- Witness for the amended C8: the empty symbol passes validation and reaches
the fetch in both handlers. -/
theorem symbol_validation_is_presence_only_witness :
    (mkRequest (lit "any") [(lit "symbol", GoAny.string [])]).RequireString
        (constWorld (fullBody 200 (lit "ok"))).quote (lit "symbol") = ([], none) ∧
    (lastQuoteHandler (constWorld (fullBody 200 (lit "ok")))
        (mkRequest (lit "any") [(lit "symbol", GoAny.string [])])).trace.head?
      = some (Event.httpGet
          (lit "https://www.alphavantage.co/query?function=GLOBAL_QUOTE&symbol=&apikey=demo")) ∧
    (timeSeriesDailyHandler (constWorld (fullBody 200 (lit "ok")))
        (mkRequest (lit "any") [(lit "symbol", GoAny.string [])])).trace.head?
      = some (Event.httpGet
          (lit ("https://www.alphavantage.co/query?function=TIME_SERIES_DAILY&symbol="
            ++ "&outputsize=compact&apikey=demo"))) :=
  symbol_validation_is_presence_only (constWorld (fullBody 200 (lit "ok")))
    (mkRequest (lit "any") [(lit "symbol", GoAny.string [])]) [] rfl

/-- C9: each handler equals validation of `symbol` followed by one shared
fetch-and-relay utility applied to the URL that handler builds; hence, for
every call request, when the upstream returns the same outcome for the two
URLs, `last_quote` and `time_series_daily` return the same result (same flag,
same text) and the same error value. -/
theorem handlers_differ_only_in_url (w : World) (request : CallToolRequest) :
    lastQuoteHandler w request
      = validateThenRelay w request (fun s => lastQuoteURL s (w.getenv (lit "AV_API_KEY"))) ∧
    timeSeriesDailyHandler w request
      = validateThenRelay w request (fun s => timeSeriesDailyURL s
          (request.GetString (lit "outputsize") (lit "compact"))
          (w.getenv (lit "AV_API_KEY"))) ∧
    (w.httpGet (lastQuoteURL (request.RequireString w.quote (lit "symbol")).1
        (w.getenv (lit "AV_API_KEY")))
      = w.httpGet (timeSeriesDailyURL (request.RequireString w.quote (lit "symbol")).1
          (request.GetString (lit "outputsize") (lit "compact"))
          (w.getenv (lit "AV_API_KEY"))) →
      (lastQuoteHandler w request).result = (timeSeriesDailyHandler w request).result ∧
      (lastQuoteHandler w request).err = (timeSeriesDailyHandler w request).err) := by
  refine ⟨lastQuoteHandler_eq_validateThenRelay w request,
    timeSeriesDailyHandler_eq_validateThenRelay w request, ?_⟩
  intro h
  rw [lastQuoteHandler_eq_validateThenRelay, timeSeriesDailyHandler_eq_validateThenRelay]
  unfold validateThenRelay
  cases (request.RequireString w.quote (lit "symbol")).2 with
  | some e => simp
  | none => exact fetchAndRelay_congr w _ _ h

/-- Witness for C9: the upstream answers both URLs with status 200 and body
`ok`. -/
theorem handlers_differ_only_in_url_witness :
    (lastQuoteHandler (constWorld (fullBody 200 (lit "ok")))
        (mkRequest (lit "any") [(lit "symbol", GoAny.string (lit "IBM"))])).result
      = (timeSeriesDailyHandler (constWorld (fullBody 200 (lit "ok")))
        (mkRequest (lit "any") [(lit "symbol", GoAny.string (lit "IBM"))])).result :=
  ((handlers_differ_only_in_url (constWorld (fullBody 200 (lit "ok")))
    (mkRequest (lit "any") [(lit "symbol", GoAny.string (lit "IBM"))])).2.2 rfl).1

/-- C10: for both handlers, every call request and every upstream outcome,
the handler returns a non-nil result together with a nil Go error; a
validation failure, a transport failure and a body-read failure are each
reported through that result, which has its error flag set and carries the
failure text, while the error return value stays nil. -/
theorem handlers_return_result_and_nil_error (w : World) (request : CallToolRequest) :
    ((lastQuoteHandler w request).result.isSome = true ∧
      (lastQuoteHandler w request).err = none ∧
      (timeSeriesDailyHandler w request).result.isSome = true ∧
      (timeSeriesDailyHandler w request).err = none) ∧
    (∀ e, (request.RequireString w.quote (lit "symbol")).2 = some e →
      (lastQuoteHandler w request).isErrorWith e.msg = true ∧
      (timeSeriesDailyHandler w request).isErrorWith e.msg = true) ∧
    (∀ s, request.RequireString w.quote (lit "symbol") = (s, none) →
      (∀ e, w.httpGet (lastQuoteURL s (w.getenv (lit "AV_API_KEY"))) = GetOutcome.failed e →
        (lastQuoteHandler w request).isErrorWith e.msg = true) ∧
      (∀ status got e,
        w.httpGet (lastQuoteURL s (w.getenv (lit "AV_API_KEY"))) = brokenBody status got e →
        (lastQuoteHandler w request).isErrorWith
          (lit "unable to read request response" ++ lit ": " ++ e.msg) = true) ∧
      (∀ e, w.httpGet (timeSeriesDailyURL s
          (request.GetString (lit "outputsize") (lit "compact"))
          (w.getenv (lit "AV_API_KEY"))) = GetOutcome.failed e →
        (timeSeriesDailyHandler w request).isErrorWith e.msg = true) ∧
      (∀ status got e, w.httpGet (timeSeriesDailyURL s
          (request.GetString (lit "outputsize") (lit "compact"))
          (w.getenv (lit "AV_API_KEY"))) = brokenBody status got e →
        (timeSeriesDailyHandler w request).isErrorWith
          (lit "unable to read request response" ++ lit ": " ++ e.msg) = true)) := by
  refine ⟨?_, ?_, ?_⟩
  · rw [lastQuoteHandler_eq_validateThenRelay, timeSeriesDailyHandler_eq_validateThenRelay]
    exact ⟨(validateThenRelay_total w request _).1, (validateThenRelay_total w request _).2,
      (validateThenRelay_total w request _).1, (validateThenRelay_total w request _).2⟩
  · intro e he
    have hv : request.RequireString w.quote (lit "symbol")
        = ((request.RequireString w.quote (lit "symbol")).1, some e) := by
      rw [← he]
    rw [lastQuoteHandler_invalid w request _ e hv, timeSeriesDailyHandler_invalid w request _ e hv]
    simp [HandlerReturn.isErrorWith, NewToolResultError, CallToolResult.text]
  · intro s hv
    refine ⟨?_, ?_, ?_, ?_⟩
    · intro e hg
      rw [lastQuoteHandler_failed w request s e hv hg]
      simp [HandlerReturn.isErrorWith, NewToolResultError, CallToolResult.text]
    · intro status got e hg
      rw [lastQuoteHandler_readError w request s got status e hv hg]
      simp [HandlerReturn.isErrorWith, NewToolResultErrorFromErr, CallToolResult.text]
    · intro e hg
      rw [timeSeriesDailyHandler_failed w request s e hv hg]
      simp [HandlerReturn.isErrorWith, NewToolResultError, CallToolResult.text]
    · intro status got e hg
      rw [timeSeriesDailyHandler_readError w request s got status e hv hg]
      simp [HandlerReturn.isErrorWith, NewToolResultErrorFromErr, CallToolResult.text]

/-- Witness for C10: a `symbol` that is a number fails validation, and a refused
connection fails the transport; both come back as error results with a nil
error value. -/
theorem handlers_return_result_and_nil_error_witness :
    ((lastQuoteHandler (constWorld (GetOutcome.failed ⟨lit "connection refused"⟩))
        (mkRequest (lit "last_quote") [(lit "symbol", GoAny.number 5)])).isErrorWith
          (lit "argument " ++ ([34] ++ lit "symbol" ++ [34]) ++ lit " is not a string") = true ∧
      (lastQuoteHandler (constWorld (GetOutcome.failed ⟨lit "connection refused"⟩))
        (mkRequest (lit "last_quote") [(lit "symbol", GoAny.number 5)])).err = none) ∧
    ((timeSeriesDailyHandler (constWorld (GetOutcome.failed ⟨lit "connection refused"⟩))
        (mkRequest (lit "time_series_daily")
          [(lit "symbol", GoAny.string (lit "IBM"))])).isErrorWith
            (lit "connection refused") = true ∧
      (timeSeriesDailyHandler (constWorld (GetOutcome.failed ⟨lit "connection refused"⟩))
        (mkRequest (lit "time_series_daily")
          [(lit "symbol", GoAny.string (lit "IBM"))])).err = none) :=
  ⟨⟨((handlers_return_result_and_nil_error
        (constWorld (GetOutcome.failed ⟨lit "connection refused"⟩))
        (mkRequest (lit "last_quote") [(lit "symbol", GoAny.number 5)])).2.1
        ⟨lit "argument " ++ ([34] ++ lit "symbol" ++ [34]) ++ lit " is not a string"⟩ rfl).1,
     (handlers_return_result_and_nil_error
        (constWorld (GetOutcome.failed ⟨lit "connection refused"⟩))
        (mkRequest (lit "last_quote") [(lit "symbol", GoAny.number 5)])).1.2.1⟩,
   ⟨((handlers_return_result_and_nil_error
        (constWorld (GetOutcome.failed ⟨lit "connection refused"⟩))
        (mkRequest (lit "time_series_daily") [(lit "symbol", GoAny.string (lit "IBM"))])).2.2
        (lit "IBM") rfl).2.2.1 ⟨lit "connection refused"⟩ rfl,
     (handlers_return_result_and_nil_error
        (constWorld (GetOutcome.failed ⟨lit "connection refused"⟩))
        (mkRequest (lit "time_series_daily")
          [(lit "symbol", GoAny.string (lit "IBM"))])).1.2.2.2⟩⟩

end McpFinance
